import Mathlib

/-!
Verification of the command protocol, message router and lifecycle
supervisor implemented in `src/main.cc`.

The embedding mirrors the source: each stdio/message callback becomes a
pure function from the parsed command (and the mutable `exitCode` state it
captures by reference) to the list of side effects it performs, in order.
Fallible numeric parsing (`std::stoi`, which throws on failure) is embedded
as `Option`/`Except`.  Collaborators that live in headers outside the
repository snapshot (`Parse`, the URI coders, `Process::write`,
`resolveToMainProcess`, ...) are modelled from the spec and marked as such
in their doc comments.
-/

namespace Socket

/-- Characters treated as whitespace by `std::isspace` in the default
locale, which `std::stoi` skips before parsing. -/
def isSpaceChar (c : Char) : Bool :=
  c == ' ' || c == '\t' || c == '\n' || c == '\r' || c == '\x0b' || c == '\x0c'

/-- Longest leading run of decimal digits of a character list. -/
def digitPrefixOf : List Char → List Char
  | [] => []
  | c :: cs => if c.isDigit then c :: digitPrefixOf cs else []

/-- Numeric value of a list of decimal digits, most significant first. -/
def digitsToNat (ds : List Char) : Nat :=
  ds.foldl (fun acc c => acc * 10 + (c.toNat - 48)) 0

/-- Models `std::stoi` (base 10): skip whitespace, read an optional sign and
a non-empty run of digits, ignore any trailing characters.  `none` stands
for a thrown exception: `std::invalid_argument` when no digits are present,
`std::out_of_range` when the value does not fit in a 32-bit `int`. -/
def stoi (s : String) : Option Int :=
  let cs := s.data.dropWhile isSpaceChar
  let signed : Int × List Char :=
    match cs with
    | c :: rest =>
      if c == '-' then (-1, rest)
      else if c == '+' then (1, rest)
      else (1, cs)
    | [] => (1, [])
  let ds := digitPrefixOf signed.2
  if ds.isEmpty then none
  else
    let v : Int := signed.1 * (digitsToNat ds : Int)
    if v < -2147483648 || 2147483647 < v then none else some v

/-- Value of a hexadecimal digit character, if it is one. -/
def hexVal (c : Char) : Option Nat :=
  if '0' ≤ c && c ≤ '9' then some (c.toNat - 48)
  else if 'A' ≤ c && c ≤ 'F' then some (c.toNat - 55)
  else if 'a' ≤ c && c ≤ 'f' then some (c.toNat - 87)
  else none

/-- Percent-decoding over a character list: a `%` followed by two hex digits
becomes the character with that code, everything else passes through. -/
def percentDecodeChars : List Char → List Char
  | [] => []
  | '%' :: h1 :: h2 :: rest =>
    match hexVal h1, hexVal h2 with
    | some a, some b => Char.ofNat (16 * a + b) :: percentDecodeChars rest
    | _, _ => '%' :: percentDecodeChars (h1 :: h2 :: rest)
  | c :: rest => c :: percentDecodeChars rest

/-- Modelled from the spec: `decodeURIComponent` lives in `common.hh`, which
is not part of the repository snapshot.  Per the spec it percent-decodes a
command field value. -/
def decodeURIComponent (s : String) : String :=
  ⟨percentDecodeChars s.data⟩

/-- Characters a URI component encoder leaves unescaped (the unreserved
set of `encodeURIComponent`). -/
def isUnreservedChar (c : Char) : Bool :=
  c.isAlpha || c.isDigit || c == '-' || c == '_' || c == '.' || c == '!' ||
  c == '~' || c == '*' || c == '\x27' || c == '(' || c == ')'

/-- Uppercase hexadecimal digit character for a value below 16. -/
def hexDigitChar (n : Nat) : Char :=
  if n < 10 then Char.ofNat (48 + n) else Char.ofNat (55 + n)

/-- Percent-encoding of one character (ASCII range, which is all the
protocol payloads the claims touch use). -/
def percentEncodeChar (c : Char) : List Char :=
  if isUnreservedChar c then [c]
  else ['%', hexDigitChar (c.toNat / 16 % 16), hexDigitChar (c.toNat % 16)]

/-- Modelled from the spec: `encodeURIComponent` lives in `common.hh`, which
is not part of the repository snapshot.  Per the spec it percent-encodes a
command field value. -/
def encodeURIComponent (s : String) : String :=
  ⟨(s.data.map percentEncodeChar).flatten⟩

/-- A parsed protocol command: verb, target window index, and the
field map.  `Parse` itself lives in `common.hh`, outside the snapshot; per
the spec a command is a pure projection of one line of text with a `name`,
an integer `index` (defaulting to 0) and unique string-valued fields. -/
structure Cmd where
  name : String
  index : Int
  fields : List (String × String)
deriving DecidableEq, Repr

/-- Field lookup on a command: per the spec, a missing key yields the empty
string rather than an error. -/
def Cmd.get (c : Cmd) (k : String) : String :=
  match c.fields.find? (fun p => p.1 == k) with
  | some p => p.2
  | none => ""

/-- One observable side effect performed by a callback in `main.cc`, in the
order the code performs them.  Window-directed effects carry the index of
the window object they act on (0 for `w0`, 1 for `w1`). -/
inductive Effect where
  | setTitle (idx : Nat) (seq title : String)
  | restartApp
  | showWindow (idx : Nat) (seq : String)
  | hideWindow (idx : Nat) (seq : String)
  | navigate (idx : Nat) (seq url : String)
  | setSize (idx : Nat) (seq : String) (width height hints : Int)
  | message (idx : Nat) (msg : String)
  | setSystemMenu (idx : Nat) (seq menu : String)
  | openExternal (idx : Nat) (url : String)
  | windowExit (idx : Nat) (code : Int)
  | evalJS (idx : Nat) (js : String)
  | writeStdout (s : String)
  | showInspector (idx : Nat)
  | openDialog (idx : Nat) (seq : String)
      (isSave allowDirs allowFiles allowMultiple : Bool)
      (defaultPath title defaultName : String)
  | setContextMenu (idx : Nat) (seq value : String)
  | forward (line : String)
  | echo (s : String)
  | exitProgram (code : Int)
  | killProcess
  | killWindow (idx : Nat)
  | killApp
deriving DecidableEq, Repr

/-- Window index an effect is directed at, if any. -/
def Effect.target : Effect → Option Nat
  | .setTitle i _ _ => some i
  | .showWindow i _ => some i
  | .hideWindow i _ => some i
  | .navigate i _ _ => some i
  | .setSize i _ _ _ _ => some i
  | .message i _ => some i
  | .setSystemMenu i _ _ => some i
  | .openExternal i _ => some i
  | .windowExit i _ => some i
  | .evalJS i _ => some i
  | .showInspector i => some i
  | .openDialog i _ _ _ _ _ _ _ _ => some i
  | .setContextMenu i _ _ => some i
  | .killWindow i => some i
  | _ => none

/-- True exactly on the effect of writing a line to the backend's stdin. -/
def Effect.isForward : Effect → Bool
  | .forward _ => true
  | _ => false

/-- Window selection used by both dispatch tables in `main.cc`:
the expression `cmd.index == 0 ? w0 : w1`. -/
def targetWindow (index : Int) : Nat :=
  if index == 0 then 0 else 1

/-- Modelled from the spec: `resolveToMainProcess` lives in `common.hh`,
outside the snapshot.  Per the spec it builds a resolved reply keyed by
`seq`, carrying a state and a payload, delivered to a surface's message
callback. -/
def resolveToMainProcess (seq state value : String) : String :=
  "resolve seq=" ++ seq ++ " state=" ++ state ++ " value=" ++ value

/-- Modelled from the spec: `resolveToRenderProcess` lives in `common.hh`,
outside the snapshot.  Per the spec it delivers a previously pending reply
(`state`, `value`) keyed by `seq` into the surface's pending-call table. -/
def resolveToRenderProcess (seq state value : String) : String :=
  "resolveRender seq=" ++ seq ++ " state=" ++ state ++ " value=" ++ value

/-- Modelled from the spec: `emitToRenderProcess` lives in `common.hh`,
outside the snapshot.  Per the spec it delivers a fire-and-forget event
with a name and a payload into the surface. -/
def emitToRenderProcess (event value : String) : String :=
  "emit event=" ++ event ++ " value=" ++ value

/-- Modelled from the spec: `Process::write` lives in `process.hh`, outside
the snapshot.  Per the spec (and the comment above the call site in
`main.cc`), a forwarded command is the original line plus the
protocol-required newline termination. -/
def processWrite (line : String) : String :=
  line ++ "\n"

/-- Backend-to-surface dispatch table: the `onStdOut` lambda of `main.cc`
(GUI mode), as run on the event-loop thread after `app.dispatch`.  `screen`
stands for the platform collaborator `Window::getScreenSize` (width,
height per window); `exitCode` is the captured mutable variable of `MAIN`.
The result is the updated `exitCode` and the ordered effects, or
`Except.error` when an uncaught `std::stoi` exception escapes the
closure. -/
def onStdOut (screen : Nat → Int × Int) (exitCode : Int) (cmd : Cmd) :
    Except String (Int × List Effect) :=
  let w := targetWindow cmd.index
  let seq := cmd.get "seq"
  let value := cmd.get "value"
  if cmd.name == "title" then
    .ok (exitCode, [.setTitle w seq (decodeURIComponent value)])
  else if cmd.name == "restart" then
    .ok (exitCode, [.restartApp])
  else if cmd.name == "show" then
    .ok (exitCode, [.showWindow w seq])
  else if cmd.name == "hide" then
    .ok (exitCode, [.hideWindow w seq])
  else if cmd.name == "navigate" then
    .ok (exitCode, [.navigate w seq (decodeURIComponent value)])
  else if cmd.name == "size" then
    match stoi (cmd.get "width") with
    | none => .error "stoi: invalid argument"
    | some width =>
      match stoi (cmd.get "height") with
      | none => .error "stoi: invalid argument"
      | some height => .ok (exitCode, [.setSize w seq width height 0])
  else if cmd.name == "getScreenSize" then
    let size := screen w
    let value :=
      "\x7b\"width\":" ++ toString size.1 ++ ",\"height\":" ++ toString size.2 ++ "\x7d"
    .ok (exitCode, [.message w (resolveToMainProcess seq "0" (encodeURIComponent value))])
  else if cmd.name == "menu" then
    .ok (exitCode, [.setSystemMenu w seq (decodeURIComponent value)])
  else if cmd.name == "external" then
    .ok (exitCode,
      .openExternal w (decodeURIComponent value) ::
      if 0 < seq.length then [.message w (resolveToMainProcess seq "0" "null")] else [])
  else if cmd.name == "exit" then
    let exitCode := (stoi value).getD exitCode
    .ok (exitCode,
      .windowExit w exitCode ::
      if 0 < seq.length then [.message w (resolveToMainProcess seq "0" "null")] else [])
  else if cmd.name == "resolve" then
    .ok (exitCode, [.evalJS w (resolveToRenderProcess seq (cmd.get "state") value)])
  else if cmd.name == "send" then
    .ok (exitCode,
      [.evalJS w (emitToRenderProcess (decodeURIComponent (cmd.get "event")) value)])
  else if cmd.name == "stdout" then
    .ok (exitCode, [.writeStdout (decodeURIComponent value)])
  else
    .ok (exitCode, [])

/-- Surface-to-backend dispatch table: the `onMessage` lambda of `main.cc`,
installed as both windows' message callback.  `out` is the raw line the
surface raised, `cmd` its parse.  No branch lets an exception escape (the
only `std::stoi` call sits in a try/catch), so the result is total. -/
def onMessage (exitCode : Int) (out : String) (cmd : Cmd) : Int × List Effect :=
  let w := targetWindow cmd.index
  if cmd.name == "title" then
    (exitCode, [.setTitle w (cmd.get "seq") (decodeURIComponent (cmd.get "value"))])
  else if cmd.name == "exit" then
    let exitCode := (stoi (decodeURIComponent (cmd.get "value"))).getD exitCode
    (exitCode, [.windowExit w exitCode])
  else if cmd.name == "hide" then
    (exitCode, [.hideWindow w ""])
  else if cmd.name == "inspect" then
    (exitCode, [.showInspector w])
  else if cmd.name == "external" then
    (exitCode, [.openExternal w (decodeURIComponent (cmd.get "value"))])
  else if cmd.name == "dialog" then
    (exitCode,
      [.openDialog w (cmd.get "seq")
        (cmd.get "type" == "save")
        (cmd.get "allowDirs" == "true")
        (cmd.get "allowFiles" == "true")
        (cmd.get "allowMultiple" == "true")
        (decodeURIComponent (cmd.get "defaultPath"))
        (decodeURIComponent (cmd.get "title"))
        (decodeURIComponent (cmd.get "defaultName"))])
  else if cmd.name == "context" then
    (exitCode, [.setContextMenu w (cmd.get "seq") (decodeURIComponent (cmd.get "value"))])
  else
    (exitCode, [.forward (processWrite out)])

/-- Stdout callback of the backend process in command-forwarding mode
(`main.cc`, the `Process` constructed inside `if (isCommandMode)`).  The
`exit` branch calls `std::stoi` outside any try/catch, so a non-integer
value is an uncaught exception, embedded as `Except.error`. -/
def commandModeStdout (cmd : Cmd) : Except String (List Effect) :=
  if cmd.name != "exit" then
    .ok [.echo (decodeURIComponent (cmd.get "value"))]
  else if cmd.name == "exit" then
    match stoi (cmd.get "value") with
    | none => .error "stoi: invalid argument"
    | some code => .ok [.exitProgram code]
  else
    .ok []

/-- The GUI-mode `shutdownHandler` lambda of `main.cc`: kill the backend
process, kill window 0, kill window 1, kill the app shell, then terminate
the process with the resolved exit code. -/
def shutdownHandlerGui (code : Int) : List Effect :=
  [.killProcess, .killWindow 0, .killWindow 1, .killApp, .exitProgram code]

/-- The free function `signalHandler` of `main.cc`, installed for `SIGINT`
and (off Windows) `SIGHUP` in GUI mode: it forwards the signal number to
the current `shutdownHandler`. -/
def signalHandlerGui (signum : Int) : List Effect :=
  shutdownHandlerGui signum

/-- Modelled from the spec: `App::dispatch` lives in the platform headers,
outside the snapshot.  Per the spec, each closure dispatched from the
backend's stdout runs independently on the event-loop thread, a failure in
one closure fails that command only, and the loop continues with the next
line.  This routes a list of already-parsed backend lines through
`onStdOut`, threading the captured `exitCode` (left unchanged by a failed
command) and collecting each command's outcome. -/
def routeBackendLines (screen : Nat → Int × Int) (exitCode : Int) :
    List Cmd → Int × List (Except String (List Effect))
  | [] => (exitCode, [])
  | c :: rest =>
    match onStdOut screen exitCode c with
    | .ok (exitCode2, effs) =>
      let r := routeBackendLines screen exitCode2 rest
      (r.1, .ok effs :: r.2)
    | .error e =>
      let r := routeBackendLines screen exitCode rest
      (r.1, .error e :: r.2)

/-- Models `std::string::find(p) == 0`: the string `s` starts with `p`. -/
def listIsPrefix : List Char → List Char → Bool
  | [], _ => true
  | _ :: _, [] => false
  | p :: ps, c :: cs => p == c && listIsPrefix ps cs

/-- String form of `listIsPrefix`: `strStartsWith s p` is
`s.find(p) == 0` in `main.cc`. -/
def strStartsWith (s p : String) : Bool :=
  listIsPrefix p.data s.data

/-- The `helpRequested` test of the argv loop in `main.cc`. -/
def helpRequested (arg : String) : Bool :=
  strStartsWith arg "--help" || strStartsWith arg "-help" || strStartsWith arg "-h"

/-- The `versionRequested` test of the argv loop in `main.cc`. -/
def versionRequested (arg : String) : Bool :=
  strStartsWith arg "--version" || strStartsWith arg "-version" ||
  strStartsWith arg "-v" || strStartsWith arg "-V"

/-- The argv loop of `MAIN` in `main.cc`, restricted to the state that
decides the mode: `c` is the counter (incremented at the top of each
iteration by the `argvArray` statement), `isCommandMode` the accumulator.
An argument with prefix `--test` takes the first branch of the
`if/else if`; otherwise a non-flag argument at position `c >= 2` sets
command mode; a help or version match then sets it unconditionally. -/
def argvLoop : List String → Nat → Bool → Bool
  | [], _, isCommandMode => isCommandMode
  | arg :: rest, c, isCommandMode =>
    let c := c + 1
    let isCommandMode :=
      if strStartsWith arg "--test" then isCommandMode
      else if 2 ≤ c ∧ strStartsWith arg "-" = false then true
      else isCommandMode
    let isCommandMode :=
      if helpRequested arg || versionRequested arg then true else isCommandMode
    argvLoop rest c isCommandMode

/-- Mode decision of `MAIN`: `isCommandMode` after the argv loop, started
with `c = 0` and `isCommandMode = false` on the full argv (program name
included, as `std::span(argv, argc)` iterates it). -/
def isCommandMode (argv : List String) : Bool :=
  argvLoop argv 0 false

/-- Verbs the surface-to-backend table services locally in `main.cc`. -/
def localVerbs : List String :=
  ["title", "exit", "hide", "inspect", "external", "dialog", "context"]

/-- Claim C1, counterexample: in command-forwarding mode the `exit` branch
calls `std::stoi` with no try/catch, so the command `exit value=abc` makes
the parse exception escape to the caller instead of resolving exit code 0;
moreover in the backend-to-surface table the catch-all fallback keeps the
previously stored exit code (here 5), it does not reset it to 0. -/
theorem exit_parse_failure_counterexample :
    commandModeStdout ⟨"exit", 0, [("value", "abc")]⟩ =
      .error "stoi: invalid argument" ∧
    onStdOut (fun _ => (0, 0)) 5 ⟨"exit", 0, [("value", "abc")]⟩ =
      .ok (5, [Effect.windowExit 0 5]) :=
  ⟨rfl, rfl⟩

/-- Claim C1, amended: in backend-to-surface and surface-to-backend routing
an `exit` command with a non-parseable value never propagates the parse
exception and resolves the exit code to the previously stored value (0 at
startup); in command-forwarding mode the `std::stoi` exception is uncaught
and propagates to the caller. -/
theorem exit_parse_failure_amended :
    ∀ (screen : Nat → Int × Int) (ec : Int) (out : String) (cmd : Cmd),
      cmd.name = "exit" →
      stoi (cmd.get "value") = none →
      stoi (decodeURIComponent (cmd.get "value")) = none →
      (∃ effs, onStdOut screen ec cmd = .ok (ec, effs)) ∧
      (∃ effs, onMessage ec out cmd = (ec, effs)) ∧
      (∃ msg, commandModeStdout cmd = .error msg) := by
  intro screen ec out cmd h h1 h2
  refine ⟨⟨?_, ?_⟩, ⟨?_, ?_⟩, ⟨"stoi: invalid argument", ?_⟩⟩
  · exact Effect.windowExit (targetWindow cmd.index) ec ::
      if 0 < (cmd.get "seq").length then
        [Effect.message (targetWindow cmd.index)
          (resolveToMainProcess (cmd.get "seq") "0" "null")]
      else []
  · simp [onStdOut, h, h1]
  · exact [Effect.windowExit (targetWindow cmd.index) ec]
  · simp [onMessage, h, h2]
  · simp [commandModeStdout, h, h1]

/-- Witness for the amended claim C1 at the command `exit value=abc`. -/
theorem exit_parse_failure_amended_witness :
    (∃ effs, onStdOut (fun _ => (0, 0)) 0 ⟨"exit", 0, [("value", "abc")]⟩ =
      .ok (0, effs)) ∧
    (∃ effs, onMessage 0 "exit value=abc" ⟨"exit", 0, [("value", "abc")]⟩ =
      (0, effs)) ∧
    (∃ msg, commandModeStdout ⟨"exit", 0, [("value", "abc")]⟩ = .error msg) :=
  exit_parse_failure_amended (fun _ => (0, 0)) 0 "exit value=abc"
    ⟨"exit", 0, [("value", "abc")]⟩ rfl (by decide) (by decide)

/-- Claim C2: in the surface-to-backend table exactly the verbs `title`,
`exit`, `hide`, `inspect`, `external`, `dialog` and `context` are handled
locally (none of their effects writes to the backend), and every command
whose name matches none of these is forwarded as the original line plus
newline termination to the backend's stdin, as the fallthrough path. -/
theorem surface_dispatch_locals_exact_and_fallback_forward :
    ∀ (ec : Int) (out : String) (cmd : Cmd),
      (cmd.name ∈ localVerbs →
        ∀ e ∈ (onMessage ec out cmd).2, e.isForward = false) ∧
      (cmd.name ∉ localVerbs →
        (onMessage ec out cmd).2 = [Effect.forward (processWrite out)]) := by
  intro ec out cmd
  constructor
  · intro h e he
    simp only [localVerbs, List.mem_cons, List.not_mem_nil, or_false] at h
    rcases h with h | h | h | h | h | h | h <;>
      simp [onMessage, h] at he <;> simp [he, Effect.isForward]
  · intro h
    simp only [localVerbs, List.mem_cons, List.not_mem_nil, or_false] at h
    push_neg at h
    obtain ⟨h1, h2, h3, h4, h5, h6, h7⟩ := h
    simp [onMessage, h1, h2, h3, h4, h5, h6, h7]

/-- Witness for claim C2: a `ping` command is forwarded with a newline, a
`hide` command produces no forward effect. -/
theorem surface_dispatch_witness :
    (onMessage 0 "ping x" ⟨"ping", 0, []⟩).2 = [Effect.forward "ping x\n"] ∧
    Effect.isForward (Effect.hideWindow 0 "") = false := by
  constructor
  · exact (surface_dispatch_locals_exact_and_fallback_forward 0 "ping x"
      ⟨"ping", 0, []⟩).2 (by decide)
  · exact (surface_dispatch_locals_exact_and_fallback_forward 0 "" ⟨"hide", 0, []⟩).1
      (by decide) (Effect.hideWindow 0 "") (by decide)

/-- Claim C3: in command-forwarding mode every backend stdout line whose
parsed name is not `exit` has its `value` percent-decoded and echoed to the
host's stdout, and a line named `exit` whose `value` parses as an integer
terminates the program with that code. -/
theorem commandMode_echo_nonexit_and_exit_code :
    ∀ cmd : Cmd,
      (cmd.name ≠ "exit" →
        commandModeStdout cmd =
          .ok [Effect.echo (decodeURIComponent (cmd.get "value"))]) ∧
      (∀ n : Int, cmd.name = "exit" → stoi (cmd.get "value") = some n →
        commandModeStdout cmd = .ok [Effect.exitProgram n]) := by
  intro cmd
  constructor
  · intro h
    simp [commandModeStdout, h]
  · intro n h hs
    simp [commandModeStdout, h, hs]

/-- Witness for claim C3: a `build` line is echoed decoded, and
`exit value=3` exits with code 3. -/
theorem commandMode_echo_nonexit_and_exit_code_witness :
    commandModeStdout ⟨"build", 0, [("value", "hi%21")]⟩ =
      .ok [Effect.echo (decodeURIComponent "hi%21")] ∧
    commandModeStdout ⟨"exit", 0, [("value", "3")]⟩ =
      .ok [Effect.exitProgram 3] := by
  constructor
  · exact (commandMode_echo_nonexit_and_exit_code ⟨"build", 0, [("value", "hi%21")]⟩).1
      (by decide)
  · exact (commandMode_echo_nonexit_and_exit_code ⟨"exit", 0, [("value", "3")]⟩).2
      3 rfl (by decide)

/-- Claim C4: the GUI shutdown handler performs its teardown in the fixed
order backend process, window 0, window 1, application shell, process
termination with the resolved exit code; the installed signal handler
forwards the signal number as that exit code, so a `SIGINT`/`SIGHUP`
invocation exits with the signal number. -/
theorem shutdown_teardown_order_and_signal_code :
    ∀ code : Int,
      shutdownHandlerGui code =
        [Effect.killProcess, Effect.killWindow 0, Effect.killWindow 1,
         Effect.killApp, Effect.exitProgram code] ∧
      signalHandlerGui code = shutdownHandlerGui code :=
  fun _ => ⟨rfl, rfl⟩

/-- Claim C6: a backend `getScreenSize` command is answered by delivering,
to the targeted window's message callback, a resolved reply keyed by the
command's `seq` whose payload is the percent-encoding of the exact
two-field object string built from the queried metrics. -/
theorem getScreenSize_resolved_reply :
    ∀ (screen : Nat → Int × Int) (ec : Int) (cmd : Cmd) (W H : Int),
      cmd.name = "getScreenSize" →
      screen (targetWindow cmd.index) = (W, H) →
      onStdOut screen ec cmd = .ok (ec,
        [Effect.message (targetWindow cmd.index)
          (resolveToMainProcess (cmd.get "seq") "0"
            (encodeURIComponent
              ("\x7b\"width\":" ++ toString W ++ ",\"height\":" ++ toString H ++
                "\x7d")))]) := by
  intro screen ec cmd W H h hs
  simp [onStdOut, h, hs]

/-- Witness for claim C6: `getScreenSize index=0 seq=7` against metrics
1920 by 1080. -/
theorem getScreenSize_resolved_reply_witness :
    onStdOut (fun _ => (1920, 1080)) 0 ⟨"getScreenSize", 0, [("seq", "7")]⟩ =
      .ok (0,
        [Effect.message (targetWindow 0)
          (resolveToMainProcess "7" "0"
            (encodeURIComponent
              ("\x7b\"width\":" ++ toString (1920 : Int) ++ ",\"height\":" ++
                toString (1080 : Int) ++ "\x7d")))]) :=
  getScreenSize_resolved_reply (fun _ => (1920, 1080)) 0
    ⟨"getScreenSize", 0, [("seq", "7")]⟩ 1920 1080 rfl rfl

/-- Claim C7: a backend `size` command with a non-parseable `width` or
`height` fails that single command, as a parse error surfaced to that
command's caller side, and the router goes on to process the following
commands with unchanged outcomes. -/
theorem size_parse_failure_confined_to_command :
    ∀ (screen : Nat → Int × Int) (ec : Int) (bad : Cmd) (rest : List Cmd),
      bad.name = "size" →
      (stoi (bad.get "width") = none ∨ stoi (bad.get "height") = none) →
      routeBackendLines screen ec (bad :: rest) =
        ((routeBackendLines screen ec rest).1,
         .error "stoi: invalid argument" :: (routeBackendLines screen ec rest).2) := by
  intro screen ec bad rest h hwh
  have herr : onStdOut screen ec bad = .error "stoi: invalid argument" := by
    rcases hwh with hw | hh
    · simp [onStdOut, h, hw]
    · rcases hws : stoi (bad.get "width") with _ | w
      · simp [onStdOut, h, hws]
      · simp [onStdOut, h, hws, hh]
  simp [routeBackendLines, herr]

/-- Witness for claim C7: a malformed `size` followed by a `hide` command;
the `hide` is still processed. -/
theorem size_parse_failure_confined_to_command_witness :
    routeBackendLines (fun _ => (0, 0)) 0
        [⟨"size", 0, [("width", "w"), ("height", "10")]⟩, ⟨"hide", 0, []⟩] =
      ((routeBackendLines (fun _ => (0, 0)) 0 [⟨"hide", 0, []⟩]).1,
       .error "stoi: invalid argument" ::
         (routeBackendLines (fun _ => (0, 0)) 0 [⟨"hide", 0, []⟩]).2) :=
  size_parse_failure_confined_to_command (fun _ => (0, 0)) 0
    ⟨"size", 0, [("width", "w"), ("height", "10")]⟩ [⟨"hide", 0, []⟩]
    rfl (Or.inl (by decide))

/-- Claim C8: a backend `external` command opens the percent-decoded value
as an external URI, and a resolved reply with a null payload is delivered
to the targeted window's message callback exactly when the command carries
a non-empty `seq`. -/
theorem external_backend_open_and_conditional_ack :
    ∀ (screen : Nat → Int × Int) (ec : Int) (cmd : Cmd),
      cmd.name = "external" →
      onStdOut screen ec cmd = .ok (ec,
        Effect.openExternal (targetWindow cmd.index)
            (decodeURIComponent (cmd.get "value")) ::
          if 0 < (cmd.get "seq").length then
            [Effect.message (targetWindow cmd.index)
              (resolveToMainProcess (cmd.get "seq") "0" "null")]
          else []) := by
  intro screen ec cmd h
  simp [onStdOut, h]

/-- Witness for claim C8: with a `seq` the reply is delivered, without one
only the URI is opened. -/
theorem external_backend_open_and_conditional_ack_witness :
    onStdOut (fun _ => (0, 0)) 0 ⟨"external", 0, [("value", "a%20b"), ("seq", "9")]⟩ =
      .ok (0,
        Effect.openExternal (targetWindow 0) (decodeURIComponent "a%20b") ::
          if 0 < ("9" : String).length then
            [Effect.message (targetWindow 0) (resolveToMainProcess "9" "0" "null")]
          else []) ∧
    onStdOut (fun _ => (0, 0)) 0 ⟨"external", 1, [("value", "x")]⟩ =
      .ok (0,
        Effect.openExternal (targetWindow 1) (decodeURIComponent "x") ::
          if 0 < ("" : String).length then
            [Effect.message (targetWindow 1) (resolveToMainProcess "" "0" "null")]
          else []) :=
  ⟨external_backend_open_and_conditional_ack (fun _ => (0, 0)) 0
      ⟨"external", 0, [("value", "a%20b"), ("seq", "9")]⟩ rfl,
   external_backend_open_and_conditional_ack (fun _ => (0, 0)) 0
      ⟨"external", 1, [("value", "x")]⟩ rfl⟩

/-- Claim C10: both dispatch tables resolve the target window with the same
selection, which maps index 0 to window 0 and every other index (larger,
or negative) to window 1; the selection is total, no index is rejected, and
every window-directed effect either table emits goes to that window. -/
theorem index_zero_to_w0_else_w1 :
    targetWindow 0 = 0 ∧
    (∀ i : Int, i ≠ 0 → targetWindow i = 1) ∧
    (∀ (screen : Nat → Int × Int) (ec : Int) (cmd : Cmd) (r : Int × List Effect),
      onStdOut screen ec cmd = .ok r →
      ∀ e ∈ r.2, ∀ j, e.target = some j → j = targetWindow cmd.index) ∧
    (∀ (ec : Int) (out : String) (cmd : Cmd) (r : Int × List Effect),
      onMessage ec out cmd = r →
      ∀ e ∈ r.2, ∀ j, e.target = some j → j = targetWindow cmd.index) := by
  refine ⟨rfl, ?_, ?_, ?_⟩
  · intro i hi
    simp [targetWindow, hi]
  · intro screen ec cmd r hr e he j hj
    by_cases h1 : cmd.name = "title"
    · simp [onStdOut, h1] at hr
      subst hr
      simp only [List.mem_cons, List.not_mem_nil, or_false] at he
      subst he
      simp [Effect.target] at hj
      exact hj.symm
    by_cases h2 : cmd.name = "restart"
    · simp [onStdOut, h1, h2] at hr
      subst hr
      simp only [List.mem_cons, List.not_mem_nil, or_false] at he
      subst he
      simp [Effect.target] at hj
    by_cases h3 : cmd.name = "show"
    · simp [onStdOut, h1, h2, h3] at hr
      subst hr
      simp only [List.mem_cons, List.not_mem_nil, or_false] at he
      subst he
      simp [Effect.target] at hj
      exact hj.symm
    by_cases h4 : cmd.name = "hide"
    · simp [onStdOut, h1, h2, h3, h4] at hr
      subst hr
      simp only [List.mem_cons, List.not_mem_nil, or_false] at he
      subst he
      simp [Effect.target] at hj
      exact hj.symm
    by_cases h5 : cmd.name = "navigate"
    · simp [onStdOut, h1, h2, h3, h4, h5] at hr
      subst hr
      simp only [List.mem_cons, List.not_mem_nil, or_false] at he
      subst he
      simp [Effect.target] at hj
      exact hj.symm
    by_cases h6 : cmd.name = "size"
    · simp [onStdOut, h1, h2, h3, h4, h5, h6] at hr
      rcases hw : stoi (cmd.get "width") with _ | wv
      · simp [hw] at hr
      rcases hh : stoi (cmd.get "height") with _ | hv
      · simp [hw, hh] at hr
      simp [hw, hh] at hr
      subst hr
      simp only [List.mem_cons, List.not_mem_nil, or_false] at he
      subst he
      simp [Effect.target] at hj
      exact hj.symm
    by_cases h7 : cmd.name = "getScreenSize"
    · simp [onStdOut, h1, h2, h3, h4, h5, h6, h7] at hr
      subst hr
      simp only [List.mem_cons, List.not_mem_nil, or_false] at he
      subst he
      simp [Effect.target] at hj
      exact hj.symm
    by_cases h8 : cmd.name = "menu"
    · simp [onStdOut, h1, h2, h3, h4, h5, h6, h7, h8] at hr
      subst hr
      simp only [List.mem_cons, List.not_mem_nil, or_false] at he
      subst he
      simp [Effect.target] at hj
      exact hj.symm
    by_cases h9 : cmd.name = "external"
    · simp [onStdOut, h1, h2, h3, h4, h5, h6, h7, h8, h9] at hr
      subst hr
      by_cases hs : 0 < (cmd.get "seq").length
      · simp [hs, List.mem_cons] at he
        rcases he with rfl | rfl <;> simp [Effect.target] at hj <;> exact hj.symm
      · simp [hs, List.mem_cons] at he
        subst he
        simp [Effect.target] at hj
        exact hj.symm
    by_cases h10 : cmd.name = "exit"
    · simp [onStdOut, h1, h2, h3, h4, h5, h6, h7, h8, h9, h10] at hr
      subst hr
      by_cases hs : 0 < (cmd.get "seq").length
      · simp [hs, List.mem_cons] at he
        rcases he with rfl | rfl <;> simp [Effect.target] at hj <;> exact hj.symm
      · simp [hs, List.mem_cons] at he
        subst he
        simp [Effect.target] at hj
        exact hj.symm
    by_cases h11 : cmd.name = "resolve"
    · simp [onStdOut, h1, h2, h3, h4, h5, h6, h7, h8, h9, h10, h11] at hr
      subst hr
      simp only [List.mem_cons, List.not_mem_nil, or_false] at he
      subst he
      simp [Effect.target] at hj
      exact hj.symm
    by_cases h12 : cmd.name = "send"
    · simp [onStdOut, h1, h2, h3, h4, h5, h6, h7, h8, h9, h10, h11, h12] at hr
      subst hr
      simp only [List.mem_cons, List.not_mem_nil, or_false] at he
      subst he
      simp [Effect.target] at hj
      exact hj.symm
    by_cases h13 : cmd.name = "stdout"
    · simp [onStdOut, h1, h2, h3, h4, h5, h6, h7, h8, h9, h10, h11, h12, h13] at hr
      subst hr
      simp only [List.mem_cons, List.not_mem_nil, or_false] at he
      subst he
      simp [Effect.target] at hj
    · simp [onStdOut, h1, h2, h3, h4, h5, h6, h7, h8, h9, h10, h11, h12, h13] at hr
      subst hr
      simp at he
  · intro ec out cmd r hr e he j hj
    by_cases h1 : cmd.name = "title"
    · simp [onMessage, h1] at hr
      subst hr
      simp only [List.mem_cons, List.not_mem_nil, or_false] at he
      subst he
      simp [Effect.target] at hj
      exact hj.symm
    by_cases h2 : cmd.name = "exit"
    · simp [onMessage, h1, h2] at hr
      subst hr
      simp only [List.mem_cons, List.not_mem_nil, or_false] at he
      subst he
      simp [Effect.target] at hj
      exact hj.symm
    by_cases h3 : cmd.name = "hide"
    · simp [onMessage, h1, h2, h3] at hr
      subst hr
      simp only [List.mem_cons, List.not_mem_nil, or_false] at he
      subst he
      simp [Effect.target] at hj
      exact hj.symm
    by_cases h4 : cmd.name = "inspect"
    · simp [onMessage, h1, h2, h3, h4] at hr
      subst hr
      simp only [List.mem_cons, List.not_mem_nil, or_false] at he
      subst he
      simp [Effect.target] at hj
      exact hj.symm
    by_cases h5 : cmd.name = "external"
    · simp [onMessage, h1, h2, h3, h4, h5] at hr
      subst hr
      simp only [List.mem_cons, List.not_mem_nil, or_false] at he
      subst he
      simp [Effect.target] at hj
      exact hj.symm
    by_cases h6 : cmd.name = "dialog"
    · simp [onMessage, h1, h2, h3, h4, h5, h6] at hr
      subst hr
      simp only [List.mem_cons, List.not_mem_nil, or_false] at he
      subst he
      simp [Effect.target] at hj
      exact hj.symm
    by_cases h7 : cmd.name = "context"
    · simp [onMessage, h1, h2, h3, h4, h5, h6, h7] at hr
      subst hr
      simp only [List.mem_cons, List.not_mem_nil, or_false] at he
      subst he
      simp [Effect.target] at hj
      exact hj.symm
    · simp [onMessage, h1, h2, h3, h4, h5, h6, h7] at hr
      subst hr
      simp only [List.mem_cons, List.not_mem_nil, or_false] at he
      subst he
      simp [Effect.target] at hj

/-- A string starting with the literal `--test` starts with `-`. -/
theorem strStartsWith_dash_of_test (a : String) :
    strStartsWith a "--test" = true → strStartsWith a "-" = true := by
  intro h
  have hd : ("--test" : String).data = ['-', '-', 't', 'e', 's', 't'] := rfl
  have hd2 : ("-" : String).data = ['-'] := rfl
  rw [strStartsWith, hd] at h
  rw [strStartsWith, hd2]
  cases hc : a.data with
  | nil => rw [hc] at h; exact absurd h (by decide)
  | cons c cs =>
    rw [hc] at h
    simp [listIsPrefix] at h ⊢
    exact h.1

/-- Distributing `List.any` over a pointwise disjunction. -/
theorem any_or_split (l : List String) (f g : String → Bool) :
    (l.any fun a => f a || g a) = (l.any f || l.any g) := by
  induction l with
  | nil => rfl
  | cons a l ih =>
    simp [List.any_cons, ih, Bool.or_assoc, Bool.or_comm, Bool.or_left_comm]

/-- Characterization of the argv loop once the counter has passed the
program name: from then on a bare (non-flag, non-`--test`-prefixed)
argument, a help match or a version match each switch command mode on. -/
theorem argvLoop_of_pos (l : List String) :
    ∀ (c : Nat) (m : Bool), 1 ≤ c →
      argvLoop l c m =
        (m || l.any fun a =>
          (!(strStartsWith a "--test") && !(strStartsWith a "-")) ||
          (helpRequested a || versionRequested a)) := by
  induction l with
  | nil => intro c m _; simp [argvLoop]
  | cons a l ih =>
    intro c m hc
    have h2 : 2 ≤ c + 1 := by omega
    rw [argvLoop, ih (c + 1) _ (by omega)]
    cases ht : strStartsWith a "--test" <;>
      cases hd : strStartsWith a "-" <;>
        cases hv : helpRequested a || versionRequested a <;>
          simp [ht, hd, hv, h2, Bool.or_assoc, Bool.or_comm, Bool.or_left_comm]

/-- Claim C9: command-forwarding mode is entered exactly when some argument
after the program name does not start with a dash, or some argument is
recognized by prefix match as a help flag (`--help`, `-help`, `-h`) or a
version flag (`--version`, `-version`, `-v`, `-V`); otherwise the run
stays in GUI mode. -/
theorem commandMode_iff_nonflag_or_help_version :
    ∀ argv : List String,
      isCommandMode argv =
        ((argv.drop 1).any (fun a => !(strStartsWith a "-")) ||
         argv.any (fun a => helpRequested a || versionRequested a)) := by
  intro argv
  cases argv with
  | nil => rfl
  | cons a0 rest =>
    have step : isCommandMode (a0 :: rest)
        = argvLoop rest 1 (helpRequested a0 || versionRequested a0) := by
      cases ht : strStartsWith a0 "--test" <;>
        cases hv : helpRequested a0 || versionRequested a0 <;>
          simp [isCommandMode, argvLoop, ht, hv]
    rw [step, argvLoop_of_pos rest 1 _ (le_refl 1)]
    have hp : ∀ a : String,
        ((!(strStartsWith a "--test") && !(strStartsWith a "-")) ||
          (helpRequested a || versionRequested a)) =
        ((!(strStartsWith a "-")) || (helpRequested a || versionRequested a)) := by
      intro a
      cases hd : strStartsWith a "-"
      · have ht : strStartsWith a "--test" = false := by
          cases hts : strStartsWith a "--test"
          · rfl
          · exact absurd (strStartsWith_dash_of_test a hts) (by simp [hd])
        simp [ht, hd]
      · simp [hd]
    simp only [hp]
    rw [any_or_split rest (fun a => !(strStartsWith a "-"))
      (fun a => helpRequested a || versionRequested a)]
    simp [List.any_cons, List.drop, Bool.or_assoc, Bool.or_comm, Bool.or_left_comm]

/-- Witness for claim C10 at indices 0, 2 and a negative index, plus one
concrete routed `hide` command with index 3 landing on window 1. -/
theorem index_zero_to_w0_else_w1_witness :
    targetWindow 0 = 0 ∧ targetWindow 2 = 1 ∧ targetWindow (-7) = 1 ∧
    (1 : Nat) = targetWindow (3 : Int) :=
  ⟨index_zero_to_w0_else_w1.1,
   index_zero_to_w0_else_w1.2.1 2 (by decide),
   index_zero_to_w0_else_w1.2.1 (-7) (by decide),
   index_zero_to_w0_else_w1.2.2.2 0 "" ⟨"hide", 3, []⟩
     (0, [Effect.hideWindow 1 ""]) (by decide)
     (Effect.hideWindow 1 "") (by decide) 1 (by decide)⟩

end Socket
